import Mathlib

/-
Shallow embedding of the tgreddit core: reddit post classification
(src/reddit/types.rs), the sqlite-backed store (src/db.rs) and the
polling scheduler (src/main.rs), with theorems checking the
natural-language specification against the code.
-/

namespace TgReddit

/-- Post types, from `enum PostType` in src/reddit/types.rs. -/
inductive PostType where
  | Image
  | Video
  | Link
  | SelfText
  | Gallery
  | Unknown
deriving DecidableEq, Repr

/-- Time periods for top listings, from `enum TopPostsTimePeriod`. -/
inductive TopPostsTimePeriod where
  | Hour
  | Day
  | Week
  | Month
  | Year
  | All
deriving DecidableEq, Repr

/-- A reddit post, from `struct Post` in src/reddit/types.rs.
`crosspost_parent_list` is recursive, exactly as in the source.
Fields irrelevant to every claim (`created: f32`, `gallery_data`,
`media_metadata`) are omitted from the embedding. -/
inductive Post where
  | mk
    (id : String)
    (subreddit : String)
    (title : String)
    (is_video : Bool)
    (ups : Nat)
    (permalink : String)
    (url : String)
    (post_hint : Option String)
    (is_self : Bool)
    (is_gallery : Option Bool)
    (post_type : PostType)
    (crosspost_parent_list : Option (List Post))

def Post.id : Post → String
  | .mk i _ _ _ _ _ _ _ _ _ _ _ => i

def Post.subreddit : Post → String
  | .mk _ s _ _ _ _ _ _ _ _ _ _ => s

def Post.title : Post → String
  | .mk _ _ t _ _ _ _ _ _ _ _ _ => t

def Post.is_video : Post → Bool
  | .mk _ _ _ v _ _ _ _ _ _ _ _ => v

def Post.ups : Post → Nat
  | .mk _ _ _ _ u _ _ _ _ _ _ _ => u

def Post.permalink : Post → String
  | .mk _ _ _ _ _ p _ _ _ _ _ _ => p

def Post.url : Post → String
  | .mk _ _ _ _ _ _ u _ _ _ _ _ => u

def Post.post_hint : Post → Option String
  | .mk _ _ _ _ _ _ _ h _ _ _ _ => h

def Post.is_self : Post → Bool
  | .mk _ _ _ _ _ _ _ _ s _ _ _ => s

def Post.is_gallery : Post → Option Bool
  | .mk _ _ _ _ _ _ _ _ _ g _ _ => g

def Post.post_type : Post → PostType
  | .mk _ _ _ _ _ _ _ _ _ _ t _ => t

def Post.crosspost_parent_list : Post → Option (List Post)
  | .mk _ _ _ _ _ _ _ _ _ _ _ l => l

/-- Everything after the first "://" in a url string; `none` when there is
no "://", in which case `Url::parse` in `is_downloadable_3rd_party`
fails and the `Result` is defaulted to `false`. -/
def afterScheme : List Char → Option (List Char)
  | ':' :: '/' :: '/' :: rest => some rest
  | _ :: rest => afterScheme rest
  | [] => none

/-- From `PostHelper::is_downloadable_video` in src/reddit/types.rs:
the url's host is `i.imgur.com` with a path ending in `.gifv`, or the
host is `gfycat.com`.  `Url::parse` lower-cases the host. -/
def is_downloadable_3rd_party (url : String) : Bool :=
  match afterScheme url.data with
  | none => false
  | some rest =>
    let host := (rest.takeWhile (fun c => c ≠ '/')).map Char.toLower
    let path := rest.dropWhile (fun c => c ≠ '/')
    let is_imgur_gif := host == ("i.imgur.com").data && (".gifv").data.isSuffixOf path
    let is_gfycat_gif := host == ("gfycat.com").data
    is_imgur_gif || is_gfycat_gif

/-- From `is_downloadable_crosspost` in `PostHelper::is_downloadable_video`:
some entry of `crosspost_parent_list` has `post_type == Video` (the
parents were themselves classified when deserialized). -/
def is_downloadable_crosspost (l : Option (List Post)) : Bool :=
  match l with
  | some list => list.any (fun q => q.post_type == PostType.Video)
  | none => false

/-- `PostHelper::is_downloadable_video` in src/reddit/types.rs. -/
def is_downloadable_video (is_vid : Bool) (l : Option (List Post)) (url : String) : Bool :=
  is_vid || is_downloadable_crosspost l || is_downloadable_3rd_party url

/-- The `post_type` computation in `Post::deserialize`
(src/reddit/types.rs lines 147-161), as a function of the raw fields. -/
def classifyFields (is_vid : Bool) (l : Option (List Post)) (url : String)
    (hint : Option String) (is_self : Bool) (is_gallery : Option Bool) : PostType :=
  if is_downloadable_video is_vid l url then PostType.Video
  else if hint == some ("image") then PostType.Image
  else if hint == some ("link") || hint == some ("rich:video") then PostType.Link
  else if is_self then PostType.SelfText
  else if is_gallery.getD false then PostType.Gallery
  else PostType.Unknown

/-- `classify` applied to a post's own raw fields (ignoring its stored
`post_type`, which deserialization derives by exactly this function). -/
def classify (p : Post) : PostType :=
  classifyFields p.is_video p.crosspost_parent_list p.url p.post_hint p.is_self p.is_gallery

/-- A row of the `post` table (src/db.rs migration 1): primary key
`(post_id, chat_id)`.  `seen_at` timestamps are abstracted to `Nat`. -/
structure SeenPostRow where
  post_id : String
  chat_id : Int
  subreddit : String
  seen_at : Nat
deriving DecidableEq, Repr

/-- A row of the `subscription` table (src/db.rs migration 2): primary
key `(subreddit, chat_id)`. -/
structure SubscriptionRow where
  chat_id : Int
  subreddit : String
  post_limit : Option Nat
  time : Option TopPostsTimePeriod
  filter : Option PostType
  created_at : Nat
deriving DecidableEq, Repr

/-- `struct Subscription` from src/types.rs (what `get_all_subscriptions`
returns; `created_at` is not selected). -/
structure Subscription where
  chat_id : Int
  subreddit : String
  limit : Option Nat
  time : Option TopPostsTimePeriod
  filter : Option PostType
deriving DecidableEq, Repr

/-- `struct SubscriptionArgs` from src/types.rs. -/
structure SubscriptionArgs where
  subreddit : String
  limit : Option Nat
  time : Option TopPostsTimePeriod
  filter : Option PostType
deriving DecidableEq, Repr

/-- Store-level failures surfaced by `rusqlite` and wrapped in `anyhow`;
the one relevant to the embedded operations is a primary-key violation
on a plain `insert`. -/
inductive StoreError where
  | constraintViolation
deriving DecidableEq, Repr

/-- The sqlite database contents: the two tables created by `MIGRATIONS`. -/
structure Db where
  posts : List SeenPostRow
  subs : List SubscriptionRow
deriving DecidableEq, Repr

def Db.empty : Db := ⟨[], []⟩

/-- `Database::is_post_seen` (src/db.rs lines 78-97):
`select exists(select 1 from post where post_id = :post_id and chat_id = :chat_id)`. -/
def Db.is_post_seen (db : Db) (chat_id : Int) (post : Post) : Bool :=
  db.posts.any (fun r => r.post_id == post.id && r.chat_id == chat_id)

/-- `Database::mark_post_seen` (src/db.rs lines 61-76): a plain
`insert into post` values; on a `(post_id, chat_id)` primary-key
conflict sqlite rejects the insert and the function returns `Err`. -/
def Db.mark_post_seen (db : Db) (now : Nat) (chat_id : Int) (post : Post) :
    Except StoreError Db :=
  if db.posts.any (fun r => r.post_id == post.id && r.chat_id == chat_id) then
    Except.error StoreError.constraintViolation
  else
    Except.ok { db with posts := db.posts ++ [⟨post.id, chat_id, post.subreddit, now⟩] }

/-- `Database::existing_posts_for_subreddit` (src/db.rs lines 99-118):
`select exists(select 1 from post where chat_id = :chat_id and subreddit = :subreddit)`. -/
def Db.existing_posts_for_subreddit (db : Db) (chat_id : Int) (subreddit : String) : Bool :=
  db.posts.any (fun r => r.chat_id == chat_id && r.subreddit == subreddit)

/-- `Database::subscribe` (src/db.rs lines 120-137): a plain
`insert into subscription`; a `(subreddit, chat_id)` primary-key
conflict makes sqlite reject the insert and the function return `Err`. -/
def Db.subscribe (db : Db) (now : Nat) (chat_id : Int) (args : SubscriptionArgs) :
    Except StoreError Db :=
  if db.subs.any (fun r => r.subreddit == args.subreddit && r.chat_id == chat_id) then
    Except.error StoreError.constraintViolation
  else
    Except.ok { db with subs :=
      db.subs ++ [⟨chat_id, args.subreddit, args.limit, args.time, args.filter, now⟩] }

/-- Sqlite `LIKE` semantics, used by `Database::unsubscribe`:
`%` matches any sequence of characters, `_` matches exactly one
character, and ordinary characters compare ASCII-case-insensitively
(`Char.toLower` folds exactly the range A-Z). -/
def sqlLike : List Char → List Char → Bool
  | [], s => s.isEmpty
  | p :: ps, s =>
    if p = '%' then s.tails.any (fun t => sqlLike ps t)
    else
      match s with
      | [] => false
      | c :: s' => (if p = '_' then true else p.toLower == c.toLower) && sqlLike ps s'

/-- `Database::unsubscribe` (src/db.rs lines 139-153):
`delete from subscription where chat_id = :chat_id and subreddit LIKE :subreddit`,
returning whether the number of deleted rows is positive. -/
def Db.unsubscribe (db : Db) (chat_id : Int) (subreddit : String) : Bool × Db :=
  let hit := fun (r : SubscriptionRow) =>
    r.chat_id == chat_id && sqlLike subreddit.data r.subreddit.data
  let deleted := db.subs.filter hit
  (decide (0 < deleted.length), { db with subs := db.subs.filter (fun r => !(hit r)) })

/-- `Database::get_all_subscriptions` (src/db.rs lines 172-185). -/
def Db.get_all_subscriptions (db : Db) : List Subscription :=
  db.subs.map (fun r => ⟨r.chat_id, r.subreddit, r.post_limit, r.time, r.filter⟩)

/-- The store mutations reachable through src/db.rs (reads do not change
state).  Failed inserts leave the database unchanged. -/
inductive StoreOp where
  | mark (now : Nat) (chat_id : Int) (post : Post)
  | addSub (now : Nat) (chat_id : Int) (args : SubscriptionArgs)
  | removeSub (chat_id : Int) (pattern : String)

def applyOp (db : Db) : StoreOp → Db
  | .mark now c p =>
    match db.mark_post_seen now c p with
    | .ok db' => db'
    | .error _ => db
  | .addSub now c a =>
    match db.subscribe now c a with
    | .ok db' => db'
    | .error _ => db
  | .removeSub c pat => (db.unsubscribe c pat).2

def applyOps (db : Db) (ops : List StoreOp) : Db := ops.foldl applyOp db

/-- The configuration fields consulted by the scheduler
(src/config.rs `struct Config`; fields irrelevant to polling omitted). -/
structure Config where
  check_interval_secs : Nat
  skip_initial_send : Bool
  default_limit : Option Nat
  default_time : Option TopPostsTimePeriod
  default_filter : Option PostType

/-- `DEFAULT_LIMIT` in src/config.rs. -/
def DEFAULT_LIMIT : Nat := 1

/-- `DEFAULT_TIME_PERIOD` in src/config.rs. -/
def DEFAULT_TIME_PERIOD : TopPostsTimePeriod := TopPostsTimePeriod.Day

/-- Failure talking to reddit (`reddit::get_subreddit_top_posts` error). -/
inductive SourceError where
  | network
deriving DecidableEq, Repr

/-- Failure of the delivery pipeline (`handle_new_post` error: telegram
upload or media download). -/
inductive DeliveryError where
  | failed
deriving DecidableEq, Repr

/-- The environment of one poll: what reddit returns for a given
(subreddit, limit, time) query, and whether delivering a post to a chat
succeeds.  Both are external collaborators of the core. -/
structure Env where
  fetch : String → Nat → TopPostsTimePeriod → Except SourceError (List Post)
  deliver : Int → Post → Except DeliveryError Unit

/-- Observable outcome of one `check_post_newness` call: the database
afterwards, the `handle_new_post` dispatch calls made (chat id and post
id), the outcome of the dispatch if one was made (its error is only
logged), and the function's own `Result`. -/
structure StepResult where
  db : Db
  dispatched : List (Int × String)
  delivery : Option (Except DeliveryError Unit)
  result : Except StoreError Unit
deriving Repr

/-- `check_post_newness` (src/main.rs lines 288-322): skip when a filter
is set and does not match `post.post_type`; skip when the post is seen;
otherwise dispatch unless `only_mark_seen` (a dispatch error is logged
and swallowed) and mark the post seen, propagating a store error. -/
def check_post_newness (env : Env) (now : Nat) (db : Db) (chat_id : Int)
    (filter : Option PostType) (post : Post) (only_mark_seen : Bool) : StepResult :=
  if filter.isSome && filter != some post.post_type then
    ⟨db, [], none, Except.ok ()⟩
  else if db.is_post_seen chat_id post then
    ⟨db, [], none, Except.ok ()⟩
  else
    let delivery := if only_mark_seen then none else some (env.deliver chat_id post)
    let dispatched := if only_mark_seen then [] else [(chat_id, post.id)]
    match db.mark_post_seen now chat_id post with
    | Except.ok db' => ⟨db', dispatched, delivery, Except.ok ()⟩
    | Except.error e => ⟨db, dispatched, delivery, Except.error e⟩

/-- The `for post in posts` loop of `check_new_posts_for_subscription`
(src/main.rs lines 373-380): each post's `check_post_newness` error is
logged and swallowed, and iteration continues. -/
def run_posts (env : Env) (now : Nat) (chat_id : Int) (filter : Option PostType)
    (only_mark_seen : Bool) : Db → List Post → Db × List (Int × String)
  | db, [] => (db, [])
  | db, p :: rest =>
    let step := check_post_newness env now db chat_id filter p only_mark_seen
    let next := run_posts env now chat_id filter only_mark_seen step.db rest
    (next.1, step.dispatched ++ next.2)

/-- Effective per-poll limit: subscription override, else config default,
else `DEFAULT_LIMIT` (src/main.rs lines 346-349). -/
def effectiveLimit (config : Config) (sub : Subscription) : Nat :=
  (sub.limit.or config.default_limit).getD DEFAULT_LIMIT

/-- Effective time period (src/main.rs lines 350-353). -/
def effectiveTime (config : Config) (sub : Subscription) : TopPostsTimePeriod :=
  (sub.time.or config.default_time).getD DEFAULT_TIME_PERIOD

/-- Effective filter (src/main.rs line 354). -/
def effectiveFilter (config : Config) (sub : Subscription) : Option PostType :=
  sub.filter.or config.default_filter

/-- `check_new_posts_for_subscription` (src/main.rs lines 339-388): fetch
the top listing; on success compute `only_mark_seen` from
`existing_posts_for_subreddit` and `skip_initial_send` and run the post
loop; a fetch error is logged and the function still returns `Ok`. -/
def check_new_posts_for_subscription (config : Config) (env : Env) (now : Nat)
    (db : Db) (sub : Subscription) : Db × List (Int × String) :=
  match env.fetch sub.subreddit (effectiveLimit config sub) (effectiveTime config sub) with
  | Except.ok posts =>
    let is_new_subreddit := !(db.existing_posts_for_subreddit sub.chat_id sub.subreddit)
    let only_mark_seen := is_new_subreddit && config.skip_initial_send
    run_posts env now sub.chat_id (effectiveFilter config sub) only_mark_seen db posts
  | Except.error _ => (db, [])

/-- The `for sub in subs` loop of `check_new_posts` (src/main.rs lines
328-334): each subscription's error is logged and swallowed. -/
def run_subs (config : Config) (env : Env) (now : Nat) :
    Db → List Subscription → Db × List (Int × String)
  | db, [] => (db, [])
  | db, sub :: rest =>
    let r := check_new_posts_for_subscription config env now db sub
    let next := run_subs config env now r.1 rest
    (next.1, r.2 ++ next.2)

/-- `check_new_posts` (src/main.rs lines 324-337): iterate every stored
subscription; per-subscription failures are caught inside the loop, so
the function returns `Ok`. -/
def check_new_posts (config : Config) (env : Env) (now : Nat) (db : Db) :
    Except StoreError (Db × List (Int × String)) :=
  Except.ok (run_subs config env now db db.get_all_subscriptions)

/-! ### Helper lemmas about the store -/

theorem is_post_seen_of_sublist {db db2 : Db} {c : Int} {p : Post}
    (h : db.posts.Sublist db2.posts) (hs : db.is_post_seen c p = true) :
    db2.is_post_seen c p = true := by
  unfold Db.is_post_seen at hs ⊢
  rw [List.any_eq_true] at hs ⊢
  obtain ⟨r, hr, hpr⟩ := hs
  exact ⟨r, h.subset hr, hpr⟩

theorem existing_posts_of_sublist {db db2 : Db} {c : Int} {s : String}
    (h : db.posts.Sublist db2.posts) (hs : db.existing_posts_for_subreddit c s = true) :
    db2.existing_posts_for_subreddit c s = true := by
  unfold Db.existing_posts_for_subreddit at hs ⊢
  rw [List.any_eq_true] at hs ⊢
  obtain ⟨r, hr, hpr⟩ := hs
  exact ⟨r, h.subset hr, hpr⟩

theorem mark_post_seen_of_unseen {db : Db} {c : Int} {p : Post} (now : Nat)
    (h : db.is_post_seen c p = false) :
    db.mark_post_seen now c p =
      Except.ok { db with posts := db.posts ++ [⟨p.id, c, p.subreddit, now⟩] } := by
  unfold Db.is_post_seen at h
  simp [Db.mark_post_seen, h]

theorem mark_post_seen_of_seen {db : Db} {c : Int} {p : Post} (now : Nat)
    (h : db.is_post_seen c p = true) :
    db.mark_post_seen now c p = Except.error StoreError.constraintViolation := by
  unfold Db.is_post_seen at h
  simp [Db.mark_post_seen, h]

theorem subscribe_of_present {db : Db} {c0 : Int} {a : SubscriptionArgs} (now : Nat)
    (hg : (db.subs.any fun r => r.subreddit == a.subreddit && r.chat_id == c0) = true) :
    db.subscribe now c0 a = Except.error StoreError.constraintViolation := by
  simp [Db.subscribe, hg]

theorem subscribe_of_absent {db : Db} {c0 : Int} {a : SubscriptionArgs} (now : Nat)
    (hg : (db.subs.any fun r => r.subreddit == a.subreddit && r.chat_id == c0) = false) :
    db.subscribe now c0 a =
      Except.ok { db with subs :=
        db.subs ++ [⟨c0, a.subreddit, a.limit, a.time, a.filter, now⟩] } := by
  simp [Db.subscribe, hg]

/-! ### Helper lemmas about one `check_post_newness` step -/

theorem check_post_newness_of_filter_skip {f : Option PostType} {p : Post}
    (env : Env) (now : Nat) (db : Db) (c : Int) (flag : Bool)
    (h : (f.isSome && f != some p.post_type) = true) :
    check_post_newness env now db c f p flag = ⟨db, [], none, Except.ok ()⟩ := by
  simp [check_post_newness, h]

theorem check_post_newness_of_seen {db : Db} {c : Int} {p : Post}
    (env : Env) (now : Nat) (f : Option PostType) (flag : Bool)
    (hs : db.is_post_seen c p = true) :
    check_post_newness env now db c f p flag = ⟨db, [], none, Except.ok ()⟩ := by
  unfold check_post_newness
  split
  · rfl
  · simp [hs]

theorem check_post_newness_of_unseen {db : Db} {c : Int} {p : Post} {f : Option PostType}
    (env : Env) (now : Nat) (flag : Bool)
    (hf : (f.isSome && f != some p.post_type) = false)
    (hs : db.is_post_seen c p = false) :
    check_post_newness env now db c f p flag =
      ⟨{ db with posts := db.posts ++ [⟨p.id, c, p.subreddit, now⟩] },
        if flag then [] else [(c, p.id)],
        if flag then none else some (env.deliver c p),
        Except.ok ()⟩ := by
  unfold check_post_newness
  rw [if_neg (by simp [hf]), if_neg (by simp [hs]), mark_post_seen_of_unseen now hs]

theorem check_post_newness_sublist (env : Env) (now : Nat) (db : Db) (c : Int)
    (f : Option PostType) (p : Post) (flag : Bool) :
    db.posts.Sublist (check_post_newness env now db c f p flag).db.posts := by
  by_cases hs : db.is_post_seen c p = true
  · rw [check_post_newness_of_seen env now f flag hs]
  · by_cases hf : (f.isSome && f != some p.post_type) = true
    · rw [check_post_newness_of_filter_skip env now db c flag hf]
    · rw [check_post_newness_of_unseen env now flag (by simpa using hf) (by simpa using hs)]
      exact List.sublist_append_left _ _

theorem check_post_newness_dispatched_mark_only (env : Env) (now : Nat) (db : Db)
    (c : Int) (f : Option PostType) (p : Post) :
    (check_post_newness env now db c f p true).dispatched = [] := by
  by_cases hs : db.is_post_seen c p = true
  · rw [check_post_newness_of_seen env now f true hs]
  · by_cases hf : (f.isSome && f != some p.post_type) = true
    · rw [check_post_newness_of_filter_skip env now db c true hf]
    · rw [check_post_newness_of_unseen env now true (by simpa using hf) (by simpa using hs)]
      rfl

theorem check_post_newness_dispatched_of_seen (env : Env) (now : Nat) {db : Db}
    {c : Int} {p : Post} (f : Option PostType) (flag : Bool)
    (hs : db.is_post_seen c p = true) :
    (check_post_newness env now db c f p flag).dispatched = [] := by
  rw [check_post_newness_of_seen env now f flag hs]

/-! ### Helper lemmas about the per-subscription post loop -/

theorem run_posts_sublist (env : Env) (now : Nat) (c : Int) (f : Option PostType)
    (flag : Bool) (posts : List Post) :
    ∀ db : Db, db.posts.Sublist (run_posts env now c f flag db posts).1.posts := by
  induction posts with
  | nil => intro db; exact List.Sublist.refl _
  | cons p rest ih =>
    intro db
    simp only [run_posts]
    exact (check_post_newness_sublist env now db c f p flag).trans (ih _)

theorem run_posts_mark_only_dispatch (env : Env) (now : Nat) (c : Int)
    (f : Option PostType) (posts : List Post) :
    ∀ db : Db, (run_posts env now c f true db posts).2 = [] := by
  induction posts with
  | nil => intro db; rfl
  | cons p rest ih =>
    intro db
    simp only [run_posts]
    rw [check_post_newness_dispatched_mark_only, ih]
    rfl

theorem run_posts_marks_all (env : Env) (now : Nat) (c : Int) (flag : Bool)
    (posts : List Post) :
    ∀ (db : Db) (p : Post), p ∈ posts →
      (run_posts env now c none flag db posts).1.is_post_seen c p = true := by
  induction posts with
  | nil => intro db p h; cases h
  | cons q rest ih =>
    intro db p hp
    simp only [run_posts]
    rcases List.mem_cons.mp hp with heq | hmem
    · subst heq
      refine is_post_seen_of_sublist (run_posts_sublist env now c none flag rest _) ?_
      by_cases hs : db.is_post_seen c p = true
      · rw [check_post_newness_of_seen env now none flag hs]
        exact hs
      · rw [check_post_newness_of_unseen env now flag (by simp) (by simpa using hs)]
        simp [Db.is_post_seen]
    · exact ih _ p hmem

theorem run_posts_existing (env : Env) (now : Nat) (c : Int) (flag : Bool)
    (S : String) (posts : List Post) :
    ∀ db : Db, (∀ p ∈ posts, p.subreddit = S) →
      (∃ q ∈ posts, db.is_post_seen c q = false) →
      (run_posts env now c none flag db posts).1.existing_posts_for_subreddit c S = true := by
  induction posts with
  | nil =>
    intro db _ h
    obtain ⟨q, hq, _⟩ := h
    cases hq
  | cons q rest ih =>
    intro db hsub hex
    simp only [run_posts]
    by_cases hs : db.is_post_seen c q = true
    · obtain ⟨w, hw, hws⟩ := hex
      rcases List.mem_cons.mp hw with heq | hwr
      · rw [heq, hs] at hws
        cases hws
      · rw [check_post_newness_of_seen env now none flag hs]
        exact ih db (fun p hp => hsub p (List.mem_cons_of_mem _ hp)) ⟨w, hwr, hws⟩
    · rw [check_post_newness_of_unseen env now flag (by simp) (by simpa using hs)]
      refine existing_posts_of_sublist (run_posts_sublist env now c none flag rest _) ?_
      have hq : q.subreddit = S := hsub q (List.mem_cons_self _ _)
      simp [Db.existing_posts_for_subreddit, hq]

theorem run_posts_events (env : Env) (now : Nat) (c : Int) (posts : List Post) :
    ∀ db : Db, List.Pairwise (fun a b : Post => a.id ≠ b.id) posts →
      (run_posts env now c none false db posts).2
        = (posts.filter (fun q => !(db.is_post_seen c q))).map (fun q => (c, q.id)) := by
  induction posts with
  | nil => intro db _; rfl
  | cons q rest ih =>
    intro db hpw
    obtain ⟨hq, hrest⟩ := List.pairwise_cons.mp hpw
    simp only [run_posts]
    by_cases hs : db.is_post_seen c q = true
    · rw [check_post_newness_of_seen env now none false hs]
      rw [List.filter_cons_of_neg (by simp [hs])]
      simpa using ih db hrest
    · rw [check_post_newness_of_unseen env now false (by simp) (by simpa using hs)]
      rw [List.filter_cons_of_pos (by simp [hs])]
      have hagree : ∀ r ∈ rest,
          (Db.mk (db.posts ++ [⟨q.id, c, q.subreddit, now⟩]) db.subs).is_post_seen c r
            = db.is_post_seen c r := by
        intro r hr
        have hne : (q.id == r.id) = false := by
          simpa using hq r hr
        simp [Db.is_post_seen, List.any_append, hne]
      rw [ih _ hrest, List.filter_congr (fun r hr => by rw [hagree r hr])]
      simp

/-! ### Helper lemmas about store operation sequences -/

theorem applyOp_posts_sublist (db : Db) (op : StoreOp) :
    db.posts.Sublist (applyOp db op).posts := by
  cases op with
  | mark now c p =>
    simp only [applyOp]
    by_cases hs : db.is_post_seen c p = true
    · rw [mark_post_seen_of_seen now hs]
    · rw [mark_post_seen_of_unseen now (by simpa using hs)]
      exact List.sublist_append_left _ _
  | addSub now c a =>
    simp only [applyOp]
    by_cases hg : (db.subs.any fun r => r.subreddit == a.subreddit && r.chat_id == c) = true
    · rw [subscribe_of_present now hg]
    · rw [subscribe_of_absent now (by simpa using hg)]
  | removeSub c pat => exact List.Sublist.refl _

theorem seen_mono_applyOps (ops : List StoreOp) :
    ∀ (db : Db) (c : Int) (p : Post),
      db.is_post_seen c p = true → (applyOps db ops).is_post_seen c p = true := by
  induction ops with
  | nil => intro db c p h; exact h
  | cons op rest ih =>
    intro db c p h
    exact ih _ c p (is_post_seen_of_sublist (applyOp_posts_sublist db op) h)

theorem applyOp_subs_count_le (db : Db) (op : StoreOp) (c : Int) (s : String)
    (h : db.subs.countP (fun r => r.chat_id == c && r.subreddit == s) ≤ 1) :
    (applyOp db op).subs.countP (fun r => r.chat_id == c && r.subreddit == s) ≤ 1 := by
  cases op with
  | mark now c0 p =>
    simp only [applyOp]
    by_cases hs : db.is_post_seen c0 p = true
    · rw [mark_post_seen_of_seen now hs]
      exact h
    · rw [mark_post_seen_of_unseen now (by simpa using hs)]
      exact h
  | addSub now c0 a =>
    simp only [applyOp]
    by_cases hg : (db.subs.any fun r => r.subreddit == a.subreddit && r.chat_id == c0) = true
    · rw [subscribe_of_present now hg]
      exact h
    · rw [subscribe_of_absent now (by simpa using hg)]
      show (db.subs ++ [(⟨c0, a.subreddit, a.limit, a.time, a.filter, now⟩ : SubscriptionRow)]).countP
          (fun r : SubscriptionRow => r.chat_id == c && r.subreddit == s) ≤ 1
      rw [Bool.not_eq_true, List.any_eq_false] at hg
      simp only [List.countP_append, List.countP_cons, List.countP_nil]
      by_cases hrow : ((c0 : Int) == c && a.subreddit == s) = true
      · obtain ⟨hc, hsub2⟩ := Bool.and_eq_true_iff.mp hrow
        have hc' : c0 = c := by simpa using hc
        have hsub' : a.subreddit = s := by simpa using hsub2
        have hzero : db.subs.countP (fun r => r.chat_id == c && r.subreddit == s) = 0 := by
          rw [List.countP_eq_zero]
          intro r hr hpred
          obtain ⟨h1, h2⟩ := Bool.and_eq_true_iff.mp hpred
          have e1 : r.chat_id = c := by simpa using h1
          have e2 : r.subreddit = s := by simpa using h2
          refine hg r hr ?_
          simp [e1, e2, hc', hsub']
        simp [hzero, hrow]
      · rw [Bool.not_eq_true] at hrow
        simpa [hrow] using h
  | removeSub c0 pat =>
    refine le_trans ?_ h
    exact List.Sublist.countP_le _ (List.filter_sublist _)

theorem applyOps_subs_count_le (ops : List StoreOp) :
    ∀ (db : Db) (c : Int) (s : String),
      db.subs.countP (fun r => r.chat_id == c && r.subreddit == s) ≤ 1 →
      (applyOps db ops).subs.countP (fun r => r.chat_id == c && r.subreddit == s) ≤ 1 := by
  induction ops with
  | nil => intro db c s h; exact h
  | cons op rest ih =>
    intro db c s h
    exact ih _ c s (applyOp_subs_count_le db op c s h)

/-! ### Helper lemmas about sqlite LIKE matching -/

theorem sqlLike_of_map_toLower_eq (pat : List Char) :
    ∀ s : List Char, pat.map Char.toLower = s.map Char.toLower → sqlLike pat s = true := by
  induction pat with
  | nil =>
    intro s h
    have : s = [] := by
      cases s with
      | nil => rfl
      | cons c cs => simp at h
    subst this
    rfl
  | cons p ps ih =>
    intro s h
    cases s with
    | nil => simp at h
    | cons c s' =>
      simp only [List.map_cons, List.cons.injEq] at h
      obtain ⟨h1, h2⟩ := h
      by_cases hp : p = '%'
      · subst hp
        simp only [sqlLike, if_true]
        rw [List.any_eq_true]
        refine ⟨s', ?_, ih s' h2⟩
        rw [List.mem_tails]
        exact ⟨[c], rfl⟩
      · simp only [sqlLike, if_neg hp]
        by_cases hu : p = '_'
        · simp [hu, ih s' h2]
        · simp [hu, h1, ih s' h2]

theorem sqlLike_percent (s : List Char) : sqlLike [ '%' ] s = true := by
  simp only [sqlLike, if_true]
  rw [List.any_eq_true]
  refine ⟨[], ?_, rfl⟩
  rw [List.mem_tails]
  exact ⟨s, by simp⟩

/-! ### Helper lemmas about `Database::unsubscribe` -/

theorem unsubscribe_fst_iff_exists (db : Db) (c : Int) (pat : String) :
    (db.unsubscribe c pat).1 = true ↔
      ∃ r ∈ db.subs, (r.chat_id == c && sqlLike pat.data r.subreddit.data) = true := by
  show decide (0 < (db.subs.filter
      (fun r => r.chat_id == c && sqlLike pat.data r.subreddit.data)).length) = true ↔ _
  rw [decide_eq_true_eq, List.length_pos]
  constructor
  · intro h
    obtain ⟨x, hx⟩ := List.exists_mem_of_ne_nil _ h
    exact ⟨x, (List.mem_filter.mp hx).1, (List.mem_filter.mp hx).2⟩
  · rintro ⟨x, hl, hp⟩
    intro hnil
    have hm : x ∈ db.subs.filter
        (fun r => r.chat_id == c && sqlLike pat.data r.subreddit.data) :=
      List.mem_filter.mpr ⟨hl, hp⟩
    rw [hnil] at hm
    cases hm

theorem unsubscribe_fst_iff_shrunk (db : Db) (c : Int) (pat : String) :
    (db.unsubscribe c pat).1 = true ↔
      (db.unsubscribe c pat).2.subs.length < db.subs.length := by
  rw [unsubscribe_fst_iff_exists]
  show _ ↔ (db.subs.filter
      (fun r => !(r.chat_id == c && sqlLike pat.data r.subreddit.data))).length
    < db.subs.length
  rw [List.length_filter_lt_length_iff_exists]
  constructor
  · rintro ⟨r, hr, hp⟩
    exact ⟨r, hr, by simp [hp]⟩
  · rintro ⟨r, hr, hp⟩
    exact ⟨r, hr, by simpa using hp⟩

theorem unsubscribe_removes {db : Db} {c : Int} {pat : String} {r : SubscriptionRow}
    (hhit : (r.chat_id == c && sqlLike pat.data r.subreddit.data) = true) :
    r ∉ (db.unsubscribe c pat).2.subs := by
  intro hmem
  have hmem' : r ∈ db.subs.filter
      (fun r => !(r.chat_id == c && sqlLike pat.data r.subreddit.data)) := hmem
  have hneg := (List.mem_filter.mp hmem').2
  rw [hhit] at hneg
  cases hneg

/-! ### Helper lemma about the subscription loop -/

theorem run_subs_fetch_error (config : Config) (env : Env) (now : Nat)
    {sub : Subscription} {e : SourceError}
    (hfail : env.fetch sub.subreddit (effectiveLimit config sub) (effectiveTime config sub)
      = Except.error e) (pre : List Subscription) :
    ∀ (post : List Subscription) (db : Db),
      run_subs config env now db (pre ++ sub :: post)
        = run_subs config env now db (pre ++ post) := by
  induction pre with
  | nil =>
    intro post db
    simp only [List.nil_append, run_subs, check_new_posts_for_subscription, hfail]
  | cons s0 pre' ih =>
    intro post db
    simp only [List.cons_append, run_subs, List.append_eq, ih]

/-! ### Concrete example data used by counterexamples and witnesses -/

/-- The third-party-host example from the spec: `is_video:false`,
`post_hint:"link"`, url `https://i.imgur.com/x.gifv`. -/
def imgurGifvPost : Post :=
  Post.mk ("p1") ("gifs") ("t1") false 1 ("/r/gifs/p1") ("https://i.imgur.com/x.gifv")
    (some ("link")) false none PostType.Video none

/-- A post with `post_hint:"image"`. -/
def imageHintPost : Post :=
  Post.mk ("p2") ("pics") ("t2") false 1 ("/r/pics/p2") ("https://example.com/a.png")
    (some ("image")) false none PostType.Image none

/-- A post with `post_hint:"rich:video"`. -/
def richVideoPost : Post :=
  Post.mk ("p3") ("videos") ("t3") false 1 ("/r/videos/p3")
    ("https://www.youtube.com/watch?v=abc") (some ("rich:video")) false none PostType.Link none

/-- A post with no `post_hint` and `is_self:true`. -/
def selfTextPost : Post :=
  Post.mk ("p4") ("ask") ("t4") false 1 ("/r/ask/p4") ("https://www.reddit.com/r/ask/p4")
    none true none PostType.SelfText none

/-- A natively hosted video post (`is_video:true`), Video-classified. -/
def videoParentPost : Post :=
  Post.mk ("p0") ("videos") ("t0") true 1 ("/r/videos/p0") ("https://v.redd.it/xyz")
    none false none PostType.Video none

/-- A crosspost with `is_video:false` whose parent list holds the
Video-classified `videoParentPost`. -/
def crosspostOfVideo : Post :=
  Post.mk ("p5") ("funny") ("t5") false 1 ("/r/funny/p5")
    ("https://www.reddit.com/r/videos/p0") none false none PostType.Video
    (some [videoParentPost])

/-- An Image-classified post in r/pics with id `img1`. -/
def examplePostImage : Post :=
  Post.mk ("img1") ("pics") ("an image") false 10 ("/r/pics/comments/img1/")
    ("https://example.com/a.png") (some ("image")) false none PostType.Image none

/-- A Link-classified post in r/pics with id `lnk1`. -/
def examplePostLink : Post :=
  Post.mk ("lnk1") ("pics") ("a link") false 5 ("/r/pics/comments/lnk1/")
    ("https://example.com/b") (some ("link")) false none PostType.Link none

/-- A second Image-classified post in r/pics with id `new1`. -/
def examplePostNew : Post :=
  Post.mk ("new1") ("pics") ("another image") false 3 ("/r/pics/comments/new1/")
    ("https://example.com/c.png") (some ("image")) false none PostType.Image none

/-- A config with `skip_initial_send` enabled and no global defaults. -/
def exampleConfigSkip : Config := ⟨3600, true, none, none, none⟩

/-- A config with `skip_initial_send` disabled and no global defaults. -/
def exampleConfigNoSkip : Config := ⟨3600, false, none, none, none⟩

/-- Chat 42 subscribed to r/pics with no per-subscription filter. -/
def exampleSubNoFilter : Subscription := ⟨42, ("pics"), some 5, none, none⟩

/-- Chat 42 subscribed to r/pics with `filter = Image`. -/
def exampleSubImageFilter : Subscription := ⟨42, ("pics"), some 5, none, some PostType.Image⟩

/-- Fetch always returns the image and the link post, delivery succeeds. -/
def exampleEnvBoth : Env :=
  ⟨fun _ _ _ => Except.ok [examplePostImage, examplePostLink], fun _ _ => Except.ok ()⟩

/-- Fetch always returns only the link post, delivery succeeds. -/
def exampleEnvLink : Env :=
  ⟨fun _ _ _ => Except.ok [examplePostLink], fun _ _ => Except.ok ()⟩

/-- Fetch returns the old image post and a new image post (second poll). -/
def exampleEnvSecond : Env :=
  ⟨fun _ _ _ => Except.ok [examplePostImage, examplePostNew], fun _ _ => Except.ok ()⟩

/-- Fetch succeeds with one image post; every delivery fails. -/
def exampleEnvFailDeliver : Env :=
  ⟨fun _ _ _ => Except.ok [examplePostImage], fun _ _ => Except.error DeliveryError.failed⟩

/-- Fetch fails for the subreddit named `bad` and returns an empty listing
otherwise; delivery succeeds. -/
def exampleEnvFetchFail : Env :=
  ⟨fun s _ _ => if s == ("bad") then Except.error SourceError.network else Except.ok [],
   fun _ _ => Except.ok ()⟩

/-- Chat 42 subscribed to the failing subreddit `bad`. -/
def exampleSubBad : Subscription := ⟨42, ("bad"), none, none, none⟩

/-- A store that has already seen post `img1` for chat 1 in r/pics. -/
def exampleDbImgSeen : Db := Db.mk [⟨("img1"), 1, ("pics"), 0⟩] []

/-- A store with one subscription of chat 7 to `Pics` (capital P). -/
def exampleDbOneSub : Db := Db.mk [] [⟨7, ("Pics"), none, none, none, 0⟩]

/-! ### Claims -/

/-- C2, counterexample: `mark_post_seen` is not idempotent.  Marking the
post `img1` as seen for chat 1 in an empty store succeeds; calling
`mark_post_seen` again for the same `(post_id, chat_id)` pair returns an
error (the plain sqlite `insert` hits the primary-key constraint), while
the claim asserts that the second call does not return an error. -/
theorem c2_mark_post_seen_counterexample :
    Db.empty.mark_post_seen 0 1 examplePostImage = Except.ok exampleDbImgSeen
      ∧ exampleDbImgSeen.is_post_seen 1 examplePostImage = true
      ∧ exampleDbImgSeen.mark_post_seen 5 1 examplePostImage
          = Except.error StoreError.constraintViolation :=
  ⟨rfl, rfl, rfl⟩

/-- C2, amended: when `(P.id, C)` is already recorded in the post table,
`mark_post_seen(C, P)` returns an error — the plain `insert` is rejected
by the `(post_id, chat_id)` primary key — and the failed insert writes
nothing, so the stored state is the same as after the first call. -/
theorem c2_mark_post_seen_errors_when_already_seen
    (db : Db) (now : Nat) (c : Int) (p : Post)
    (h : db.is_post_seen c p = true) :
    db.mark_post_seen now c p = Except.error StoreError.constraintViolation :=
  mark_post_seen_of_seen now h

/-- C2, witness: the amended statement at the concrete store that has
already recorded `(img1, 1)`. -/
theorem c2_mark_post_seen_errors_witness :
    exampleDbImgSeen.mark_post_seen 5 1 examplePostImage
      = Except.error StoreError.constraintViolation :=
  c2_mark_post_seen_errors_when_already_seen exampleDbImgSeen 5 1 examplePostImage (by decide)

/-- C5: `classify` is a pure function of the raw post fields (it is a
Lean function, hence deterministic) and follows the first-match order
Video, Image, Link, SelfText, Gallery, Unknown.  The five examples from
the claim: an `i.imgur.com/*.gifv` url classifies as Video even with
`post_hint:"link"`; `post_hint:"image"` gives Image;
`post_hint:"rich:video"` gives Link; no hint with `is_self:true` gives
SelfText; a non-video crosspost whose parent list contains a
Video-classified entry gives Video. -/
theorem c5_classifier_decision_order :
    classify imgurGifvPost = PostType.Video
      ∧ imgurGifvPost.is_video = false
      ∧ classify imageHintPost = PostType.Image
      ∧ classify richVideoPost = PostType.Link
      ∧ classify selfTextPost = PostType.SelfText
      ∧ crosspostOfVideo.is_video = false
      ∧ classify videoParentPost = PostType.Video
      ∧ classify crosspostOfVideo = PostType.Video := by
  decide

/-- C6: seen-ness is monotonic.  Once a `(post, chat)` pair is recorded,
`is_post_seen` stays true after any sequence of store operations: no
operation of src/db.rs deletes or rewrites a row of the post table. -/
theorem c6_seen_posts_monotonic
    (db : Db) (c : Int) (p : Post) (ops : List StoreOp)
    (h : db.is_post_seen c p = true) :
    (applyOps db ops).is_post_seen c p = true :=
  seen_mono_applyOps ops db c p h

/-- C6, witness: post `img1` stays seen for chat 1 across an unsubscribe,
a subscribe and another mark. -/
theorem c6_seen_posts_monotonic_witness :
    (applyOps exampleDbImgSeen
        [StoreOp.removeSub 1 ("%"),
         StoreOp.addSub 2 1 ⟨("pics"), none, none, none⟩,
         StoreOp.mark 3 1 examplePostLink]).is_post_seen 1 examplePostImage = true :=
  c6_seen_posts_monotonic exampleDbImgSeen 1 examplePostImage
    [StoreOp.removeSub 1 ("%"),
     StoreOp.addSub 2 1 ⟨("pics"), none, none, none⟩,
     StoreOp.mark 3 1 examplePostLink] (by decide)

/-- C7: subscription uniqueness.  Starting from the empty store, after
any sequence of store operations the subscription table holds at most
one row per `(chat_id, subreddit)` pair: `subscribe` is rejected by the
`(subreddit, chat_id)` primary key when the pair already exists, and
`unsubscribe` only removes rows. -/
theorem c7_subscription_uniqueness (ops : List StoreOp) (c : Int) (s : String) :
    (applyOps Db.empty ops).subs.countP
        (fun r => r.chat_id == c && r.subreddit == s) ≤ 1 :=
  applyOps_subs_count_le ops Db.empty c s (by simp [Db.empty])


/-- C9: `unsubscribe` returns true exactly when at least one subscription
row was deleted (the table shrank) and false when no row matched; and
because sqlite `LIKE` compares ASCII letters case-insensitively, a
stored subscription whose subreddit differs from the argument only in
ASCII letter case (same letters up to `Char.toLower`) is deleted and the
call returns true. -/
theorem c9_unsubscribe_deletes_case_insensitively (db : Db) (c : Int) (pat : String) :
    ((db.unsubscribe c pat).1 = true ↔
        (db.unsubscribe c pat).2.subs.length < db.subs.length)
      ∧ (∀ r ∈ db.subs, r.chat_id = c →
          pat.data.map Char.toLower = r.subreddit.data.map Char.toLower →
          (db.unsubscribe c pat).1 = true ∧ r ∉ (db.unsubscribe c pat).2.subs) := by
  constructor
  · exact unsubscribe_fst_iff_shrunk db c pat
  · intro r hr hc hcase
    have hlike : sqlLike pat.data r.subreddit.data = true :=
      sqlLike_of_map_toLower_eq pat.data r.subreddit.data hcase
    have hhit : (r.chat_id == c && sqlLike pat.data r.subreddit.data) = true := by
      simp [hc, hlike]
    exact ⟨(unsubscribe_fst_iff_exists db c pat).mpr ⟨r, hr, hhit⟩,
      unsubscribe_removes hhit⟩

/-- C9, witness: unsubscribing chat 7 with the argument `pics` deletes
the stored subscription to `Pics` and returns true. -/
theorem c9_unsubscribe_case_insensitive_witness :
    (exampleDbOneSub.unsubscribe 7 ("pics")).1 = true
      ∧ (⟨7, ("Pics"), none, none, none, 0⟩ : SubscriptionRow)
          ∉ (exampleDbOneSub.unsubscribe 7 ("pics")).2.subs :=
  (c9_unsubscribe_deletes_case_insensitively exampleDbOneSub 7 ("pics")).2
    ⟨7, ("Pics"), none, none, none, 0⟩ (by decide) (by decide) (by decide)

/-- C10: the `unsubscribe` argument is used as a SQL LIKE pattern, so
`%` acts as a wildcard: for any chat with at least one subscription,
`unsubscribe(chat_id, "%")` deletes every subscription row of that chat
and returns true. -/
theorem c10_unsubscribe_percent_wildcard (db : Db) (c : Int)
    (h : ∃ r ∈ db.subs, r.chat_id = c) :
    (db.unsubscribe c ("%")).1 = true
      ∧ ∀ r ∈ (db.unsubscribe c ("%")).2.subs, r.chat_id ≠ c := by
  have hd : ("%").data = [ '%' ] := rfl
  constructor
  · obtain ⟨r, hr, hc⟩ := h
    refine (unsubscribe_fst_iff_exists db c ("%")).mpr ⟨r, hr, ?_⟩
    simp [hc, hd, sqlLike_percent]
  · intro r hmem hc
    have hmem2 : r ∈ db.subs.filter
        (fun r => !(r.chat_id == c && sqlLike ("%").data r.subreddit.data)) := hmem
    have hneg := (List.mem_filter.mp hmem2).2
    rw [hc] at hneg
    simp [hd, sqlLike_percent] at hneg

/-- C10, witness: `unsubscribe(7, "%")` on a store with one subscription
of chat 7 returns true and leaves chat 7 with no subscription rows. -/
theorem c10_unsubscribe_percent_witness :
    (exampleDbOneSub.unsubscribe 7 ("%")).1 = true
      ∧ ∀ r ∈ (exampleDbOneSub.unsubscribe 7 ("%")).2.subs, r.chat_id ≠ 7 :=
  c10_unsubscribe_percent_wildcard exampleDbOneSub 7
    ⟨⟨7, ("Pics"), none, none, none, 0⟩, by decide, by decide⟩


/-- C8: failure isolation across subscriptions.  If fetching the listing
for one subscription fails, that subscription contributes nothing (the
error is logged inside its own step), the cycle over the surrounding
list equals the cycle with the failing subscription removed — so every
later subscription is still processed — and `check_new_posts` returns
`Ok`. -/
theorem c8_fetch_failure_isolated (config : Config) (env : Env) (now : Nat)
    (db : Db) (pre post : List Subscription) (sub : Subscription) (e : SourceError)
    (hfail : env.fetch sub.subreddit (effectiveLimit config sub) (effectiveTime config sub)
      = Except.error e) :
    run_subs config env now db (pre ++ sub :: post)
        = run_subs config env now db (pre ++ post)
      ∧ ∀ db0 : Db, ∃ r, check_new_posts config env now db0 = Except.ok r :=
  ⟨run_subs_fetch_error config env now hfail pre post db,
    fun _ => ⟨_, rfl⟩⟩

/-- C8, witness: with a fetch that fails for subreddit `bad`, the cycle
over `[bad-subscription, pics-subscription]` equals the cycle over
`[pics-subscription]` alone, and `check_new_posts` returns `Ok`. -/
theorem c8_fetch_failure_isolated_witness :
    run_subs exampleConfigSkip exampleEnvFetchFail 0 Db.empty
        ([] ++ exampleSubBad :: [exampleSubNoFilter])
      = run_subs exampleConfigSkip exampleEnvFetchFail 0 Db.empty ([] ++ [exampleSubNoFilter])
      ∧ ∃ r, check_new_posts exampleConfigSkip exampleEnvFetchFail 0 Db.empty
          = Except.ok r := by
  have h := c8_fetch_failure_isolated exampleConfigSkip exampleEnvFetchFail 0 Db.empty
    [] [exampleSubNoFilter] exampleSubBad SourceError.network rfl
  exact ⟨h.1, h.2 Db.empty⟩

/-- C4: for an unseen post that passes the filter in a normal cycle
(`only_mark_seen = false`), a delivery-pipeline error is caught: the
per-post step still returns `Ok`, the dispatch call was made and
observed to fail, and the post is marked seen afterwards; consequently
any later step over a store whose post table extends this one skips any
post with the same id without dispatching — the post is never
re-dispatched. -/
theorem c4_delivery_failure_still_marked_seen
    (env : Env) (now : Nat) (db : Db) (c : Int) (f : Option PostType) (p : Post)
    (err : DeliveryError)
    (hf : (f.isSome && f != some p.post_type) = false)
    (hs : db.is_post_seen c p = false)
    (hd : env.deliver c p = Except.error err) :
    (check_post_newness env now db c f p false).result = Except.ok ()
      ∧ (check_post_newness env now db c f p false).dispatched = [(c, p.id)]
      ∧ (check_post_newness env now db c f p false).delivery = some (Except.error err)
      ∧ (check_post_newness env now db c f p false).db.is_post_seen c p = true
      ∧ ∀ (env2 : Env) (now2 : Nat) (db2 : Db) (f2 : Option PostType) (q : Post)
          (flag2 : Bool),
          (check_post_newness env now db c f p false).db.posts.Sublist db2.posts →
          q.id = p.id →
          (check_post_newness env2 now2 db2 c f2 q flag2).dispatched = [] := by
  rw [check_post_newness_of_unseen env now false hf hs]
  refine ⟨rfl, rfl, ?_, ?_, ?_⟩
  · simp [hd]
  · simp [Db.is_post_seen, List.any_append]
  · intro env2 now2 db2 f2 q flag2 hsub hq
    refine check_post_newness_dispatched_of_seen env2 now2 f2 flag2 ?_
    refine is_post_seen_of_sublist hsub ?_
    simp [Db.is_post_seen, List.any_append, hq]

/-- C4, witness: delivery of `img1` fails, yet the step returns `Ok` and
the post is seen afterwards. -/
theorem c4_delivery_failure_witness :
    (check_post_newness exampleEnvFailDeliver 7 Db.empty 42 none examplePostImage
        false).result = Except.ok ()
      ∧ (check_post_newness exampleEnvFailDeliver 7 Db.empty 42 none examplePostImage
          false).delivery = some (Except.error DeliveryError.failed)
      ∧ (check_post_newness exampleEnvFailDeliver 7 Db.empty 42 none examplePostImage
          false).db.is_post_seen 42 examplePostImage = true := by
  have h := c4_delivery_failure_still_marked_seen exampleEnvFailDeliver 7 Db.empty 42
    none examplePostImage DeliveryError.failed (by decide) (by decide) rfl
  exact ⟨h.1, h.2.2.1, h.2.2.2.1⟩


/-- C3, counterexample: with `filter = Image`, `skip_initial_send`
disabled and a fetched listing of one unseen Image post and one unseen
Link post, the cycle dispatches only the Image post — but the Link post
is NOT marked seen afterwards: the filter check in `check_post_newness`
returns before `mark_post_seen` is reached, whereas the claim asserts
both posts end up marked seen. -/
theorem c3_filter_counterexample :
    (check_new_posts_for_subscription exampleConfigNoSkip exampleEnvBoth 7 Db.empty
        exampleSubImageFilter).2 = [(42, ("img1"))]
      ∧ (check_new_posts_for_subscription exampleConfigNoSkip exampleEnvBoth 7 Db.empty
          exampleSubImageFilter).1.is_post_seen 42 examplePostImage = true
      ∧ (check_new_posts_for_subscription exampleConfigNoSkip exampleEnvBoth 7 Db.empty
          exampleSubImageFilter).1.is_post_seen 42 examplePostLink = false := by
  decide

/-- C3, amended: when a subscription's effective filter is Image and a
normal poll cycle (`skip_initial_send` disabled) fetches one unseen
Image-classified post and one unseen Link-classified post with distinct
ids, a delivery is dispatched only for the Image post, and after the
cycle the Image post is marked seen while the filtered-out Link post is
not marked seen. -/
theorem c3_filter_dispatches_image_only
    (config : Config) (env : Env) (now : Nat) (db : Db) (sub : Subscription)
    (p1 p2 : Post)
    (hfilter : effectiveFilter config sub = some PostType.Image)
    (hskip : config.skip_initial_send = false)
    (h1t : p1.post_type = PostType.Image)
    (h2t : p2.post_type = PostType.Link)
    (h1s : db.is_post_seen sub.chat_id p1 = false)
    (h2s : db.is_post_seen sub.chat_id p2 = false)
    (hid : p1.id ≠ p2.id)
    (hfetch : env.fetch sub.subreddit (effectiveLimit config sub) (effectiveTime config sub)
      = Except.ok [p1, p2]) :
    (check_new_posts_for_subscription config env now db sub).2 = [(sub.chat_id, p1.id)]
      ∧ (check_new_posts_for_subscription config env now db sub).1.is_post_seen
          sub.chat_id p1 = true
      ∧ (check_new_posts_for_subscription config env now db sub).1.is_post_seen
          sub.chat_id p2 = false := by
  have hf1 : ((some PostType.Image : Option PostType).isSome
      && (some PostType.Image : Option PostType) != some p1.post_type) = false := by
    simp [h1t]
  have hf2 : ((some PostType.Image : Option PostType).isSome
      && (some PostType.Image : Option PostType) != some p2.post_type) = true := by
    simp [h2t]
  have hid2 : (p1.id == p2.id) = false := by
    simpa using hid
  have h2s2 : (db.posts.any fun r => r.post_id == p2.id && r.chat_id == sub.chat_id)
      = false := h2s
  simp only [check_new_posts_for_subscription, hfetch, hfilter, hskip, Bool.and_false,
    run_posts]
  rw [check_post_newness_of_unseen env now false hf1 h1s]
  simp only [run_posts]
  rw [check_post_newness_of_filter_skip env now _ sub.chat_id false hf2]
  refine ⟨rfl, ?_, ?_⟩
  · simp [Db.is_post_seen, List.any_append]
  · simp [Db.is_post_seen, List.any_append, hid2, h2s2]

/-- C3, witness: the amended statement at the concrete cycle of
`c3_filter_counterexample`. -/
theorem c3_filter_dispatches_image_only_witness :
    (check_new_posts_for_subscription exampleConfigNoSkip exampleEnvBoth 7 Db.empty
        exampleSubImageFilter).2 = [(42, ("img1"))]
      ∧ (check_new_posts_for_subscription exampleConfigNoSkip exampleEnvBoth 7 Db.empty
          exampleSubImageFilter).1.is_post_seen 42 examplePostImage = true
      ∧ (check_new_posts_for_subscription exampleConfigNoSkip exampleEnvBoth 7 Db.empty
          exampleSubImageFilter).1.is_post_seen 42 examplePostLink = false :=
  c3_filter_dispatches_image_only exampleConfigNoSkip exampleEnvBoth 7 Db.empty
    exampleSubImageFilter examplePostImage examplePostLink rfl rfl rfl rfl
    (by decide) (by decide) (by decide) rfl


/-- C1, counterexample: chat 42 subscribes to r/pics with
`filter = Image`, the store has no seen post for the pair and
`skip_initial_send` is enabled; the first fetch returns one unseen Link
post.  The first cycle performs zero dispatches, but the fetched Link
post is NOT marked seen — the filter drops it before the marking step —
whereas the claim asserts the first cycle marks every fetched post
seen. -/
theorem c1_skip_initial_send_counterexample :
    Db.empty.existing_posts_for_subreddit 42 ("pics") = false
      ∧ (check_new_posts_for_subscription exampleConfigSkip exampleEnvLink 7 Db.empty
          exampleSubImageFilter).2 = []
      ∧ (check_new_posts_for_subscription exampleConfigSkip exampleEnvLink 7 Db.empty
          exampleSubImageFilter).1.is_post_seen 42 examplePostLink = false := by
  decide

/-- C1, amended: for a subscription whose chat/subreddit pair has no seen
post, with `skip_initial_send` enabled the first poll cycle performs
zero dispatch calls (whatever the filter), and marks every fetched post
seen provided the effective filter is unset (a set filter drops
non-matching posts before they are marked).  On a second cycle run after
a first cycle that recorded at least one genuinely new post of the
subscribed subreddit (filter unset), first-run suppression is off and
the cycle dispatches exactly the fetched posts that are not yet seen, in
listing order. -/
theorem c1_skip_initial_send_first_cycle
    (config : Config) (env : Env) (now : Nat) (db : Db) (sub : Subscription)
    (posts1 : List Post)
    (hskip : config.skip_initial_send = true)
    (hnew : db.existing_posts_for_subreddit sub.chat_id sub.subreddit = false)
    (hfetch : env.fetch sub.subreddit (effectiveLimit config sub) (effectiveTime config sub)
      = Except.ok posts1) :
    (check_new_posts_for_subscription config env now db sub).2 = []
      ∧ (effectiveFilter config sub = none →
          ∀ p ∈ posts1,
            (check_new_posts_for_subscription config env now db sub).1.is_post_seen
              sub.chat_id p = true)
      ∧ (∀ (env2 : Env) (now2 : Nat) (posts2 : List Post),
          effectiveFilter config sub = none →
          (∀ p ∈ posts1, p.subreddit = sub.subreddit) →
          (∃ q ∈ posts1, db.is_post_seen sub.chat_id q = false) →
          env2.fetch sub.subreddit (effectiveLimit config sub) (effectiveTime config sub)
            = Except.ok posts2 →
          List.Pairwise (fun a b : Post => a.id ≠ b.id) posts2 →
          (check_new_posts_for_subscription config env2 now2
              (check_new_posts_for_subscription config env now db sub).1 sub).2
            = (posts2.filter (fun q =>
                !((check_new_posts_for_subscription config env now db sub).1.is_post_seen
                    sub.chat_id q))).map (fun q => (sub.chat_id, q.id))) := by
  have hcycle : check_new_posts_for_subscription config env now db sub
      = run_posts env now sub.chat_id (effectiveFilter config sub) true db posts1 := by
    simp [check_new_posts_for_subscription, hfetch, hnew, hskip]
  refine ⟨?_, ?_, ?_⟩
  · rw [hcycle]
    exact run_posts_mark_only_dispatch env now sub.chat_id (effectiveFilter config sub)
      posts1 db
  · intro hfilt p hp
    rw [hcycle, hfilt]
    exact run_posts_marks_all env now sub.chat_id true posts1 db p hp
  · intro env2 now2 posts2 hfilt hsubr hex hfetch2 hdist
    rw [hcycle, hfilt]
    have hex1 : (run_posts env now sub.chat_id none true db
        posts1).1.existing_posts_for_subreddit sub.chat_id sub.subreddit = true :=
      run_posts_existing env now sub.chat_id true sub.subreddit posts1 db hsubr hex
    simp only [check_new_posts_for_subscription, hfetch2, hfilt, hex1, Bool.not_true,
      Bool.false_and]
    exact run_posts_events env2 now2 sub.chat_id posts2 _ hdist

/-- C1, witness: chat 42, r/pics, no filter, `skip_initial_send` on.
First cycle over `[img1, lnk1]`: zero dispatches, `img1` marked seen.
Second cycle over `[img1, new1]`: exactly the unseen `new1` is
dispatched. -/
theorem c1_skip_initial_send_witness :
    (check_new_posts_for_subscription exampleConfigSkip exampleEnvBoth 7 Db.empty
        exampleSubNoFilter).2 = []
      ∧ (check_new_posts_for_subscription exampleConfigSkip exampleEnvBoth 7 Db.empty
          exampleSubNoFilter).1.is_post_seen 42 examplePostImage = true
      ∧ (check_new_posts_for_subscription exampleConfigSkip exampleEnvSecond 8
          (check_new_posts_for_subscription exampleConfigSkip exampleEnvBoth 7 Db.empty
            exampleSubNoFilter).1 exampleSubNoFilter).2 = [(42, ("new1"))] := by
  have h := c1_skip_initial_send_first_cycle exampleConfigSkip exampleEnvBoth 7 Db.empty
    exampleSubNoFilter [examplePostImage, examplePostLink] rfl (by decide) rfl
  refine ⟨h.1, h.2.1 rfl examplePostImage (List.mem_cons_self _ _), ?_⟩
  have h3 := h.2.2 exampleEnvSecond 8 [examplePostImage, examplePostNew] rfl
    (by
      rintro p hp
      rcases List.mem_cons.mp hp with rfl | hp2
      · rfl
      · rcases List.mem_cons.mp hp2 with rfl | hp3
        · rfl
        · cases hp3)
    ⟨examplePostImage, List.mem_cons_self _ _, by decide⟩ rfl
    (by
      refine List.Pairwise.cons ?_ (List.pairwise_singleton _ _)
      rintro b hb
      rcases List.mem_cons.mp hb with rfl | hb2
      · decide
      · cases hb2)
  exact h3.trans (by decide)


end TgReddit
